import Mathlib

/-!
Verification development for the media-URL extraction engine of
`dependencies.py` (glamapp).

The Python source drives a selenium-like page session.  The embedding models a
computation as a state-and-exception monad `M S` over an abstract driver
interface `SelDriver S`: the driver supplies navigation, element lookup,
clicking, script clicks, form input and attribute reads, all as deterministic
functions of a session state `S`.  Exceptions do not roll back state, exactly
as in Python.  The generic bounded-retry decorator `waiter_wrapper` is modelled
separately over attempt-indexed operations so that transient failure sequences
can be expressed; inside the deterministic driver embedding every retry attempt
observes the same state, so the retried lookup is the constant operation.

The two unbounded `while` loops of the source (`get_carousel_media` and
`get_profile_media_urls`) are step-indexed with an explicit fuel argument; fuel
exhaustion surfaces as the distinguished error `PyErr.timeout`, a model marker
for divergence of the source loop, never raised by any terminating run.
-/

set_option linter.unusedVariables false

/-- Root URL constant `INST_URL` from the source. -/
def INST_URL : String := "https://www.instagram.com"

/-- Selector kind, mirroring selenium `By.CSS_SELECTOR` / `By.XPATH`. -/
inductive By where
  | css
  | xpath
deriving DecidableEq, Repr

/-- A selector: kind together with its value string, as passed to
`find_element(by=..., value=...)`. -/
structure Selector where
  bySel : By
  value : String
deriving DecidableEq, Repr

/-- Model of the `UserNotFound` exception class: the constructor keyword
argument sets the `username` attribute, and the message is then formatted from
the class attribute `reason` and the instance dict. -/
structure UserNotFound where
  username : String
  message : String
deriving DecidableEq, Repr

/-- The class attribute `reason = "User not found"`. -/
def UserNotFound.reasonText : String := "User not found"

/-- `UserNotFound(username=u)`: kwargs are written as attributes, then, the
positional message being empty, `message` becomes
`"{title} {body}".format(title=reason, body=vars(self))`. -/
def UserNotFound.fromKwUsername (u : String) : UserNotFound :=
  ⟨u, UserNotFound.reasonText ++ " \x7b\x27username\x27: \x27" ++ u ++ "\x27\x7d"⟩

/-- Errors observable in the embedded engine.  `noSuchElement`,
`elementClickIntercepted` are the selenium exception kinds named by the source;
`attributeError` models Python's `AttributeError` from calling a method on
`None`; `validationError` models pydantic model-construction failure;
`userNotFound` is the domain error raised by `validate_user`.  `timeout` is a
model artifact marking fuel exhaustion of the source's unbounded loops. -/
inductive PyErr where
  | noSuchElement
  | elementClickIntercepted
  | attributeError
  | validationError
  | userNotFound (exc : UserNotFound)
  | timeout
deriving DecidableEq, Repr

instance {E A : Type} [DecidableEq E] [DecidableEq A] : DecidableEq (Except E A) :=
  fun x y =>
    match x, y with
    | .ok a, .ok b =>
      if h : a = b then .isTrue (by rw [h]) else .isFalse (by intro hh; cases hh; exact h rfl)
    | .ok _, .error _ => .isFalse (by intro hh; cases hh)
    | .error _, .ok _ => .isFalse (by intro hh; cases hh)
    | .error e, .error f =>
      if h : e = f then .isTrue (by rw [h]) else .isFalse (by intro hh; cases hh; exact h rfl)

/-- `InstagramMediaTypesSelectors` enum; `value` carries the XPATH selector of
each media type (empty for `CAROUSEL`, a container state). -/
inductive InstagramMediaTypesSelectors where
  | PHOTO
  | CLIP
  | CAROUSEL
deriving DecidableEq, Repr

/-- Selector values of the media-type enum, copied from the source. -/
def InstagramMediaTypesSelectors.value : InstagramMediaTypesSelectors → String
  | .PHOTO => "//div[@role=\x27button\x27]//img[@style=\x27object-fit: cover;\x27]"
  | .CLIP => "//div//video"
  | .CAROUSEL => ""

/-- `InstagramNextButtonSelectors` enum with its CSS selector values. -/
inductive InstagramNextButtonSelectors where
  | POST
  | SLIDE
deriving DecidableEq, Repr

/-- Selector values of the next-button enum, copied from the source. -/
def InstagramNextButtonSelectors.value : InstagramNextButtonSelectors → String
  | .POST => "svg[aria-label*=\x27Next\x27]"
  | .SLIDE => "button[aria-label*=\x27Next\x27]"

/-- `AppSettings` environment configuration (pydantic settings). -/
structure AppSettings where
  DEBUG : Bool
  ENVIRONMENT : String
  INST_USERNAME : String
  INST_PASSWORD : String
  REDIS_HOST : String
  REDIS_PORT : Nat
deriving DecidableEq, Repr

/-- Split a character sequence at the first occurrence of the URL scheme
separator, returning the parts before and after it; `none` when the separator
does not occur. -/
def sepSplit : List Char → Option (List Char × List Char)
  | [] => none
  | c :: t =>
    if [':', '/', '/'].isPrefixOf (c :: t) then some ([], t.drop 2)
    else
      match sepSplit t with
      | some (pre, post) => some (c :: pre, post)
      | none => none

/-- Model of the external pydantic `AnyUrl` check: a well-formed URL has a
nonempty scheme before the separator and a nonempty remainder after it. -/
def isAnyUrl (s : String) : Bool :=
  match sepSplit s.toList with
  | some (scheme, rest) => !scheme.isEmpty && !rest.isEmpty
  | none => false

/-- `InstagramLinksModel`: `urls : List[Optional[AnyUrl]]`.  An `AnyUrl` is
modelled as its string; `None` entries are modelled as `none`. -/
structure InstagramLinksModel where
  urls : List (Option String)
deriving DecidableEq, Repr

/-- pydantic construction `InstagramLinksModel(urls=...)`: every element must
be `None` or a string passing the `AnyUrl` check, otherwise construction
raises a validation error.  This is the only way the engine builds the model. -/
def validateLinks (urls : List (Option String)) : Except PyErr InstagramLinksModel :=
  if urls.all (fun o => match o with | none => true | some s => isAnyUrl s) then
    .ok ⟨urls⟩
  else
    .error .validationError

/-- Opaque DOM element identity handed out by the driver. -/
abbrev Handle := Nat

/-- The Python value passed as the `driver` argument of `find_element`: the
driver itself, a previously found element, or `None` (on which any attribute
access raises `AttributeError`). -/
inductive PyObj where
  | root
  | elem (h : Handle)
  | pynone
deriving DecidableEq, Repr

/-- Conversion of an optional lookup result into the object passed on as a
`driver` argument, as done at the carousel call site. -/
def objOf : Option Handle → PyObj
  | none => .pynone
  | some h => .elem h

/-- Computation over session state `S`: Python mutation with exceptions, where
an exception does not roll back already performed state changes. -/
def M (S : Type) (α : Type) : Type := S → Except PyErr α × S

instance {S : Type} : Monad (M S) where
  pure a := fun s => (.ok a, s)
  bind m f := fun s =>
    match m s with
    | (.ok a, s1) => f a s1
    | (.error e, s1) => (.error e, s1)

/-- Raise an exception. -/
def M.throw {S α : Type} (e : PyErr) : M S α := fun s => (.error e, s)

/-- Perform a state update with no interesting return value. -/
def M.modifyS {S : Type} (g : S → S) : M S Unit := fun s => (.ok (), g s)

/-- Lift a pure fallible value (used for pydantic construction). -/
def M.liftE {S α : Type} (r : Except PyErr α) : M S α := fun s => (r, s)

/-- Python attribute access and call on an `Optional` element: on `None` it
raises `AttributeError`, otherwise it yields the element. -/
def requireElem {S : Type} : Option Handle → M S Handle
  | none => M.throw .attributeError
  | some h => pure h

/-- The abstract selenium driver interface consumed by the engine: every
operation is a deterministic function of the session state. `find` may fail
with any error; a missing element fails with `noSuchElement`. -/
structure SelDriver (S : Type) where
  nav : String → S → S
  currentUrl : S → String
  find : PyObj → Selector → S → Except PyErr Handle
  click : Handle → S → Except PyErr S
  scriptClick : Handle → S → S
  clear : Handle → S → S
  sendKeys : Handle → String → S → S
  getAttr : Handle → String → S → Option String

/-- `element.click()` with no exception handling at the call site. -/
def clickM {S : Type} (d : SelDriver S) (h : Handle) : M S Unit := fun s =>
  match d.click h s with
  | .ok s2 => (.ok (), s2)
  | .error e => (.error e, s)

/-- The click in `next_element`: `ElementClickInterceptedException` is caught
and replaced by the scripted click `execute_script("arguments[0].click();")`;
any other click failure propagates. -/
def clickOrScript {S : Type} (d : SelDriver S) (h : Handle) : M S Unit := fun s =>
  match d.click h s with
  | .ok s2 => (.ok (), s2)
  | .error .elementClickIntercepted => (.ok (), d.scriptClick h s)
  | .error e => (.error e, s)

/-- `element.get_attribute(name)` (may be `None`). -/
def getAttrM {S : Type} (d : SelDriver S) (h : Handle) (name : String) : M S (Option String) :=
  fun s => (.ok (d.getAttr h name s), s)

/-- Read `driver.current_url`. -/
def currentUrlM {S : Type} (d : SelDriver S) : M S String := fun s => (.ok (d.currentUrl s), s)

/-- The `except NoSuchElementException: pass` pattern around a statement. -/
def catchNoSuchElement {S : Type} (m : M S Unit) : M S Unit := fun s =>
  match m s with
  | (.error .noSuchElement, s1) => (.ok (), s1)
  | r => r

/-- Core loop of the `waiter_wrapper` decorator.  `op n` is the outcome of the
n-th (0-based) invocation of the wrapped callable; `attempts` counts calls
already made and `sleeps` the delays already taken.  On failure the error is
re-raised once `top_attempts` is reached or its kind is in `exp_exc`,
otherwise the loop sleeps and retries.  `fuel` only drives the recursion; the
entry point supplies `fuel = top_attempts`, which the loop can never exhaust
(the attempt bound fires first), so the fuel branch replicates the raise. -/
def waiterAux {E A : Type} (op : Nat → Except E A) (exp_exc : E → Bool)
    (top_attempts : Nat) : Nat → Nat → Nat → Except E A × Nat × Nat
  | fuel, attempts, sleeps =>
    match op attempts with
    | .ok r => (.ok r, attempts + 1, sleeps)
    | .error e =>
      if top_attempts ≤ attempts + 1 ∨ exp_exc e = true then
        (.error e, attempts + 1, sleeps)
      else
        match fuel with
        | 0 => (.error e, attempts + 1, sleeps)
        | f + 1 => waiterAux op exp_exc top_attempts f (attempts + 1) (sleeps + 1)

/-- `waiter_wrapper(top_attempts, sleep_time, exp_exc)` applied to an
operation: returns the final outcome, the number of attempts made and the
number of inter-attempt delays taken (each delay lasting `sleep_time`).
Source defaults: 10 attempts, delay 1, no ignored error kinds. -/
def waiter_wrapper {E A : Type} (op : Nat → Except E A) (top_attempts : Nat)
    (sleep_time : Nat) (exp_exc : E → Bool) : Except E A × Nat × Nat :=
  waiterAux op exp_exc top_attempts top_attempts 0 0

/-- `find_element` over an attempt-indexed lookup: the lookup is run through
`waiter_wrapper(top_attempts=tries)` and `NoSuchElementException` is caught,
yielding `None`; any other error propagates. -/
def find_element (op : Nat → Except PyErr Handle) (tries : Nat) :
    Except PyErr (Option Handle) :=
  match (waiter_wrapper op tries 1 (fun _ => false)).1 with
  | .ok el => .ok (some el)
  | .error .noSuchElement => .ok none
  | .error e => .error e

/-- `find_element` inside the deterministic driver embedding: the retried
lookup observes the same state at every attempt, so the wrapped operation is
constant; passing `None` as the driver argument raises `AttributeError` at the
`driver.find_element` attribute access. -/
def findElementM {S : Type} (d : SelDriver S) (tgt : PyObj) (sel : Selector)
    (tries : Nat) : M S (Option Handle) := fun s =>
  match tgt with
  | .pynone => (.error .attributeError, s)
  | _ => (find_element (fun _ => d.find tgt sel s) tries, s)

/-- Substring membership on character lists, scanning for a prefix at every
position (models the Python `in` test on strings). -/
def charListContains (needle : List Char) : List Char → Bool
  | [] => needle.isEmpty
  | c :: t => needle.isPrefixOf (c :: t) || charListContains needle t

/-- Python `needle in hay` on strings. -/
def strContains (hay needle : String) : Bool :=
  charListContains needle.toList hay.toList

/-- Selector `input[name='username']` of the login form. -/
def selUsername : Selector := ⟨.css, "input[name=\x27username\x27]"⟩

/-- Selector `input[name='password']` of the login form. -/
def selPassword : Selector := ⟨.css, "input[name=\x27password\x27]"⟩

/-- Selector `button[type='submit']` of the login form. -/
def selSubmit : Selector := ⟨.css, "button[type=\x27submit\x27]"⟩

/-- Selector `//button[contains(text(), 'Not Now')]` of the post-login
dialogs. -/
def selNotNow : Selector := ⟨.xpath, "//button[contains(text(), \x27Not Now\x27)]"⟩

/-- Selector `//span[contains(text(), 'Posts')]`: the profile-page marker. -/
def selPosts : Selector := ⟨.xpath, "//span[contains(text(), \x27Posts\x27)]"⟩

/-- Selector `a[href*='/p/']`: the latest post link on the profile grid. -/
def selLatestPost : Selector := ⟨.css, "a[href*=\x27/p/\x27]"⟩

/-- Selector of the current carousel slide container.  Inside the loop of
`get_carousel_media` the flag `last_slide` is always false when the f-string
is evaluated, so the selector is the constant
`//div[@role='presentation']//ul/li[contains(@tabindex, '1')][last()-1]`. -/
def selCarouselItem : Selector :=
  ⟨.xpath, "//div[@role=\x27presentation\x27]//ul/li[contains(@tabindex, \x271\x27)][last()-1]"⟩

/-- `get_url(driver, url)`: direct the session to the url; no return value. -/
def get_url {S : Type} (d : SelDriver S) (url : String) : M S Unit :=
  M.modifyS (d.nav url)

/-- `login_instagram(driver)`: open the site root, look up the username and
password inputs (each lookup absorbing `NoSuchElementException` into `None`),
clear and fill them, submit, and dismiss the two known `Not Now` dialogs when
present.  Method calls on a `None` lookup result raise `AttributeError`. -/
def login_instagram {S : Type} (d : SelDriver S) (config : AppSettings) : M S Unit := do
  get_url d INST_URL
  let username_field ← findElementM d .root selUsername 10
  let password_field ← findElementM d .root selPassword 10
  let uf ← requireElem username_field
  M.modifyS (d.clear uf)
  let pf ← requireElem password_field
  M.modifyS (d.clear pf)
  M.modifyS (d.sendKeys uf config.INST_USERNAME)
  M.modifyS (d.sendKeys pf config.INST_PASSWORD)
  let submit_button ← findElementM d .root selSubmit 10
  let sb ← requireElem submit_button
  clickM d sb
  let save_password ← findElementM d .root selNotNow 10
  match save_password with
  | some h => clickM d h
  | none => pure ()
  let notification_popup ← findElementM d .root selNotNow 10
  match notification_popup with
  | some h => clickM d h
  | none => pure ()

/-- `validate_user(username, driver)`: best-effort login with
`NoSuchElementException` swallowed at the call site, navigation to the profile
URL, then the `Posts` marker check; a missing marker raises
`UserNotFound(username=username)`. -/
def validate_user {S : Type} (d : SelDriver S) (config : AppSettings)
    (username : String) : M S Unit := do
  catchNoSuchElement (login_instagram d config)
  get_url d (INST_URL ++ "/" ++ username)
  let posts_tab ← findElementM d .root selPosts 10
  match posts_tab with
  | none => M.throw (.userNotFound (UserNotFound.fromKwUsername username))
  | some _ => pure ()

/-- `get_profile(username, driver)`: validate the user then open the profile
page. -/
def get_profile {S : Type} (d : SelDriver S) (config : AppSettings)
    (username : String) : M S Unit := do
  validate_user d config username
  get_url d (INST_URL ++ "/" ++ username)

/-- `get_post_type(driver)` (the underlying classification; the source wraps
it in the external `@cache(15)` decorator, whose key derivation is modelled by
`get_post_type_cache_key`): a carousel query marker in the current URL means
`CAROUSEL`; otherwise presence of the photo element means `PHOTO`, absence
means `CLIP`. -/
def get_post_type {S : Type} (d : SelDriver S) : M S InstagramMediaTypesSelectors := do
  let url ← currentUrlM d
  if strContains url ("?img_index") then
    pure .CAROUSEL
  else do
    let photo ← findElementM d .root ⟨.xpath, InstagramMediaTypesSelectors.PHOTO.value⟩ 10
    match photo with
    | some _ => pure .PHOTO
    | none => pure .CLIP

/-- `next_element(driver, button_selector, tries)`: up to `tries` rounds of
looking up the next-button; when found it is clicked (falling back to the
scripted click if the click is intercepted) and the function reports `False`
(not the last element); if no round finds the button it reports `True`. -/
def next_element {S : Type} (d : SelDriver S)
    (button_selector : InstagramNextButtonSelectors) : Nat → M S Bool
  | 0 => pure true
  | tries + 1 => do
    let next_button ← findElementM d .root ⟨.css, button_selector.value⟩ 10
    match next_button with
    | some h => do
      clickOrScript d h
      pure false
    | none => next_element d button_selector tries

/-- Loop body of `get_carousel_media`: while not on the last slide and fewer
than `max_count` links are collected, read the slide container, read the media
element of the requested type inside it (appending its `src` attribute when
present, possibly `None`), then advance with the slide next-button
(`tries=3`).  Fuel exhaustion of the source's unbounded `while` surfaces as
`timeout`. -/
def carouselLoop {S : Type} (d : SelDriver S)
    (media_type : InstagramMediaTypesSelectors) (max_count : Nat) :
    Nat → List (Option String) → M S (List (Option String))
  | 0, links => fun s =>
    if links.length < max_count then (.error .timeout, s) else (.ok links, s)
  | fuel + 1, links => fun s =>
    if links.length < max_count then
      (do
        let carousel_element ← findElementM d .root selCarouselItem 10
        let slide_media ←
          findElementM d (objOf carousel_element) ⟨.xpath, media_type.value⟩ 10
        let links2 ←
          match slide_media with
          | some h => do
            let src ← getAttrM d h ("src")
            pure (links ++ [src])
          | none => pure links
        let last_slide ← next_element d .SLIDE 3
        if last_slide then pure links2 else carouselLoop d media_type max_count fuel links2) s
    else (.ok links, s)

/-- `get_carousel_media(driver, media_type, max_count)`: run the slide loop
starting from an empty collection and build `InstagramLinksModel` from the
collected links. -/
def get_carousel_media {S : Type} (d : SelDriver S)
    (media_type : InstagramMediaTypesSelectors) (max_count : Nat) (fuel : Nat) :
    M S InstagramLinksModel := do
  let carousel_media_links ← carouselLoop d media_type max_count fuel []
  M.liftE (validateLinks carousel_media_links)

/-- Loop body of `get_profile_media_urls`: while fewer than `max_count` links
are collected and the last post is not reached, classify the current post; a
post of the requested type contributes its media `src` (an `AttributeError`
if the media element is absent); a carousel post contributes the first
matching carousel link when any; then advance with the post next-button. -/
def mediaLoop {S : Type} (d : SelDriver S)
    (media_type : InstagramMediaTypesSelectors) (max_count : Nat) (cfuel : Nat) :
    Nat → List (Option String) → M S (List (Option String))
  | 0, medias => fun s =>
    if medias.length < max_count then (.error .timeout, s) else (.ok medias, s)
  | fuel + 1, medias => fun s =>
    if medias.length < max_count then
      (do
        let post_type ← get_post_type d
        let medias1 ←
          if post_type = media_type then do
            let el ← findElementM d .root ⟨.xpath, media_type.value⟩ 10
            let elh ← requireElem el
            let src ← getAttrM d elh ("src")
            pure (medias ++ [src])
          else pure medias
        let medias2 ←
          if post_type = InstagramMediaTypesSelectors.CAROUSEL then do
            let carousel_media ← get_carousel_media d media_type 1 cfuel
            match carousel_media.urls with
            | u :: _ => pure (medias1 ++ [u])
            | [] => pure medias1
          else pure medias1
        let last_post ← next_element d .POST 1
        if last_post then pure medias2 else mediaLoop d media_type max_count cfuel fuel medias2) s
    else (.ok medias, s)

/-- `get_profile_media_urls(username, media_type, driver, max_count)` (the
underlying extraction; the source wraps it in the external `@cache(expire=15)`
decorator, whose key derivation is modelled by
`get_profile_media_urls_cache_key`): open the profile (validating the user),
then, unless `max_count == 0`, open the latest post when present and run the
collection loop; finally build `InstagramLinksModel` from the collected
links. -/
def get_profile_media_urls {S : Type} (d : SelDriver S) (config : AppSettings)
    (username : String) (media_type : InstagramMediaTypesSelectors)
    (max_count : Nat) (cfuel fuel : Nat) : M S InstagramLinksModel := do
  get_profile d config username
  let medias ←
    if max_count ≠ 0 then do
      let latest_post ← findElementM d .root selLatestPost 10
      match latest_post with
      | some h => do
        clickM d h
        mediaLoop d media_type max_count cfuel fuel []
      | none => pure []
    else pure ([] : List (Option String))
  M.liftE (validateLinks medias)

/-- Modelled from the spec: the caching decorator applied to
`get_profile_media_urls` and `get_post_type` lives in the external
`fastapi_cache` library; per the spec, cache keys "are derived
deterministically from call arguments", and the default derivation hashes the
decorated function's name together with its full argument tuple.  The hash is
modelled as the identity on the structured tuple (hash collisions are out of
scope), and the driver argument is modelled by its repr string, which embeds
the session identity. -/
def get_profile_media_urls_cache_key (username : String)
    (media_type : InstagramMediaTypesSelectors) (driverRepr : String)
    (max_count : Nat) : String × String × InstagramMediaTypesSelectors × String × Nat :=
  ("get_profile_media_urls", username, media_type, driverRepr, max_count)

/-- Modelled from the spec: cache key of the decorated `get_post_type`.  The
function's only argument is the driver, so the key is derived from the
function name and the driver repr alone; no post URL enters the key. -/
def get_post_type_cache_key (driverRepr : String) : String × String :=
  ("get_post_type", driverRepr)

/-- A fixed configuration used by the concrete sessions below. -/
def cfgTest : AppSettings := ⟨false, "local", "user", "secret", "localhost", 6379⟩

/-- Concrete session counting navigation calls: the state is the number of
`navigate` calls made so far.  The login form and the profile `Posts` marker
are present, the `Not Now` dialogs, post links and media elements are absent,
every click succeeds and mutates nothing. -/
def dNav : SelDriver Nat where
  nav := fun _ n => n + 1
  currentUrl := fun _ => ""
  find := fun _ sel _ =>
    if sel = selUsername then .ok 1
    else if sel = selPassword then .ok 2
    else if sel = selSubmit then .ok 3
    else if sel = selPosts then .ok 4
    else .error .noSuchElement
  click := fun _ s => .ok s
  scriptClick := fun _ s => s
  clear := fun _ s => s
  sendKeys := fun _ _ s => s
  getAttr := fun _ _ _ => none

/-- Concrete session whose profile page lacks the `Posts` marker: the login
form is present, everything else (including the marker) is absent. -/
def dGhost : SelDriver Nat where
  nav := fun _ n => n + 1
  currentUrl := fun _ => ""
  find := fun _ sel _ =>
    if sel = selUsername then .ok 1
    else if sel = selPassword then .ok 2
    else if sel = selSubmit then .ok 3
    else .error .noSuchElement
  click := fun _ s => .ok s
  scriptClick := fun _ s => s
  clear := fun _ s => s
  sendKeys := fun _ _ s => s
  getAttr := fun _ _ _ => none

/-- Concrete session on which every element lookup reports `noSuchElement`:
in particular the login page renders none of its form fields. -/
def dAbsent : SelDriver Unit where
  nav := fun _ s => s
  currentUrl := fun _ => ""
  find := fun _ _ _ => .error .noSuchElement
  click := fun _ s => .ok s
  scriptClick := fun _ s => s
  clear := fun _ s => s
  sendKeys := fun _ _ s => s
  getAttr := fun _ _ _ => none

/-- Concrete carousel session: the state is the pair (current slide index,
number of slide-advance clicks performed).  Six slides (indices 0..5); the
photo element is present exactly on slides 1, 3, 5 (indices 0, 2, 4) and its
`src` names the slide; the slide next-button exists while a further slide
remains; clicking it advances the slide and counts the advance. -/
def dCarousel : SelDriver (Nat × Nat) where
  nav := fun _ s => s
  currentUrl := fun _ => ""
  find := fun tgt sel s =>
    match tgt with
    | .root =>
      if sel = selCarouselItem then .ok 100
      else if sel = ⟨.css, InstagramNextButtonSelectors.SLIDE.value⟩ then
        (if s.1 < 5 then .ok 300 else .error .noSuchElement)
      else .error .noSuchElement
    | .elem h =>
      if h = 100 ∧ sel = ⟨.xpath, InstagramMediaTypesSelectors.PHOTO.value⟩ ∧
          (s.1 = 0 ∨ s.1 = 2 ∨ s.1 = 4) then .ok 200
      else .error .noSuchElement
    | .pynone => .error .noSuchElement
  click := fun h s => if h = 300 then .ok (s.1 + 1, s.2 + 1) else .ok s
  scriptClick := fun _ s => s
  clear := fun _ s => s
  sendKeys := fun _ _ s => s
  getAttr := fun h attr s =>
    if h = 200 ∧ attr = "src" then some ("https://a/" ++ toString (s.1 + 1)) else none

theorem M.bind_apply {S α β : Type} (m : M S α) (f : α → M S β) (s : S) :
    (m >>= f) s =
      match m s with
      | (.ok a, s1) => f a s1
      | (.error e, s1) => (.error e, s1) := rfl

theorem M.pure_apply {S α : Type} (a : α) (s : S) : (pure a : M S α) s = (.ok a, s) := rfl

theorem M.bind_eq_ok {S α β : Type} {m : M S α} {f : α → M S β} {s : S} {b : β} {s2 : S} :
    (m >>= f) s = (.ok b, s2) ↔ ∃ a s1, m s = (.ok a, s1) ∧ f a s1 = (.ok b, s2) := by
  rw [M.bind_apply]
  rcases hm : m s with ⟨r, s1⟩
  cases r with
  | ok a =>
    simp only []
    constructor
    · intro h
      exact ⟨a, s1, rfl, h⟩
    · rintro ⟨a2, s3, h1, h2⟩
      rw [Prod.mk.injEq, Except.ok.injEq] at h1
      obtain ⟨rfl, rfl⟩ := h1
      exact h2
  | error e => simp

theorem waiterAux_const_error {E A : Type} (op : Nat → Except E A) (e : E)
    (exp_exc : E → Bool) (top : Nat) (hop : ∀ j, op j = .error e) :
    ∀ fuel attempts sleeps, (waiterAux op exp_exc top fuel attempts sleeps).1 = .error e := by
  intro fuel
  induction fuel with
  | zero =>
    intro attempts sleeps
    rw [waiterAux, hop attempts]
    simp only []
    split <;> rfl
  | succ f ih =>
    intro attempts sleeps
    rw [waiterAux, hop attempts]
    simp only []
    split
    · rfl
    · exact ih (attempts + 1) (sleeps + 1)

theorem waiterAux_succeeds {E A : Type} (op : Nat → Except E A) (exp_exc : E → Bool)
    (top : Nat) (a : A) :
    ∀ k attempts sleeps fuel,
      (∀ j, attempts ≤ j → j < attempts + k → ∃ er, op j = .error er ∧ exp_exc er = false) →
      op (attempts + k) = .ok a →
      attempts + k + 1 ≤ top →
      k ≤ fuel →
      waiterAux op exp_exc top fuel attempts sleeps = (.ok a, attempts + k + 1, sleeps + k) := by
  intro k
  induction k with
  | zero =>
    intro attempts sleeps fuel hfail hsucc htop hfuel
    rw [Nat.add_zero] at hsucc
    rw [waiterAux, hsucc]
    simp
  | succ k ih =>
    intro attempts sleeps fuel hfail hsucc htop hfuel
    obtain ⟨er, hop, hexp⟩ := hfail attempts (Nat.le_refl _) (by omega)
    have hcond : ¬(top ≤ attempts + 1 ∨ exp_exc er = true) := by
      rw [hexp]
      simp only [Bool.false_eq_true, or_false]
      omega
    cases fuel with
    | zero => omega
    | succ f =>
      rw [waiterAux, hop]
      simp only []
      rw [if_neg hcond]
      have e1 : attempts + (k + 1) + 1 = attempts + 1 + k + 1 := by omega
      have e2 : sleeps + (k + 1) = sleeps + 1 + k := by omega
      rw [e1, e2]
      exact ih (attempts + 1) (sleeps + 1) f
        (by intro j h1 h2
            exact hfail j (by omega) (by omega))
        (by rw [show attempts + 1 + k = attempts + (k + 1) from by omega]
            exact hsucc)
        (by omega) (by omega)

theorem waiterAux_all_fail {E A : Type} (op : Nat → Except E A) (exp_exc : E → Bool)
    (top : Nat) (efun : Nat → E)
    (hop : ∀ j, op j = .error (efun j)) (hexp : ∀ j, exp_exc (efun j) = false) :
    ∀ fuel attempts sleeps, attempts + fuel = top → attempts < top →
      waiterAux op exp_exc top fuel attempts sleeps =
        (.error (efun (top - 1)), top, sleeps + (top - 1 - attempts)) := by
  intro fuel
  induction fuel with
  | zero =>
    intro attempts sleeps hinv hlt
    omega
  | succ f ih =>
    intro attempts sleeps hinv hlt
    by_cases hc : top ≤ attempts + 1
    · have htop : top = attempts + 1 := by omega
      rw [waiterAux, hop attempts]
      simp only []
      rw [if_pos (Or.inl hc), htop]
      simp
    · have hcond : ¬(top ≤ attempts + 1 ∨ exp_exc (efun attempts) = true) := by
        rw [hexp]
        simp only [Bool.false_eq_true, or_false]
        omega
      rw [waiterAux, hop attempts]
      simp only []
      rw [if_neg hcond, ih (attempts + 1) (sleeps + 1) (by omega) (by omega)]
      have e2 : sleeps + 1 + (top - 1 - (attempts + 1)) = sleeps + (top - 1 - attempts) := by
        omega
      rw [e2]

/-- C5: under the decorator's default policy (10 attempts, delay 1, no
non-retryable kinds), an operation failing exactly `k < 10` times before
succeeding yields the success value unchanged after `k + 1` attempts and
exactly `k` delays; an operation failing on every attempt yields its error
(the one of the final attempt) after exactly 10 attempts. -/
theorem waiter_wrapper_default_policy {E A : Type} (op opf : Nat → Except E A)
    (k : Nat) (a : A) (efun : Nat → E)
    (hk : k < 10)
    (hfail : ∀ j, j < k → ∃ er, op j = .error er)
    (hsucc : op k = .ok a)
    (hallfail : ∀ j, opf j = .error (efun j)) :
    waiter_wrapper op 10 1 (fun _ => false) = (.ok a, k + 1, k) ∧
    waiter_wrapper opf 10 1 (fun _ => false) = (.error (efun 9), 10, 9) := by
  constructor
  · have h := waiterAux_succeeds op (fun _ => false) 10 a k 0 0 10
      (by intro j h0 hjk
          obtain ⟨er, her⟩ := hfail j (by omega)
          exact ⟨er, her, rfl⟩)
      (by simpa using hsucc) (by omega) (by omega)
    simpa [waiter_wrapper] using h
  · have h := waiterAux_all_fail opf (fun _ => false) 10 efun hallfail (fun _ => rfl)
      10 0 0 (by omega) (by omega)
    simpa [waiter_wrapper] using h

theorem waiter_wrapper_default_policy_witness :
    waiter_wrapper (fun j => if j < 2 then Except.error 0 else Except.ok 42) 10 1
      (fun _ => false) = (.ok 42, 3, 2) ∧
    waiter_wrapper (fun _ => (Except.error 7 : Except Nat Nat)) 10 1
      (fun _ => false) = (.error 7, 10, 9) :=
  waiter_wrapper_default_policy _ _ 2 42 (fun _ => 7) (by omega)
    (fun j hj => ⟨0, by simp [hj]⟩) (by simp) (fun j => rfl)

/-- C7: a single-element lookup that signals `NoSuchElementException` on every
attempt makes `find_element` return `None` without propagating any error. -/
theorem find_element_absent_ok (op : Nat → Except PyErr Handle) (tries : Nat)
    (hop : ∀ j, op j = .error .noSuchElement) :
    find_element op tries = .ok none := by
  unfold find_element
  rw [show (waiter_wrapper op tries 1 (fun _ => false)).1 = .error .noSuchElement from
    waiterAux_const_error op .noSuchElement _ tries hop tries 0 0]

theorem find_element_absent_ok_witness :
    find_element (fun _ => .error .noSuchElement) 10 = .ok none :=
  find_element_absent_ok _ 10 (fun _ => rfl)

theorem waiterAux_const_ok {E A : Type} (a : A) (exp_exc : E → Bool)
    (top fuel attempts sleeps : Nat) :
    waiterAux (fun _ => (.ok a : Except E A)) exp_exc top fuel attempts sleeps =
      (.ok a, attempts + 1, sleeps) := by
  rw [waiterAux]

theorem find_element_const (r : Except PyErr Handle) (tries : Nat) :
    find_element (fun _ => r) tries =
      match r with
      | .ok h => .ok (some h)
      | .error .noSuchElement => .ok none
      | .error e => .error e := by
  cases r with
  | ok h =>
    unfold find_element waiter_wrapper
    rw [waiterAux_const_ok]
  | error e =>
    unfold find_element
    rw [show (waiter_wrapper (fun _ => (.error e : Except PyErr Handle)) tries 1
        (fun _ => false)).1 = .error e from
      waiterAux_const_error _ e _ tries (fun _ => rfl) tries 0 0]

theorem findElementM_root {S : Type} (d : SelDriver S) (sel : Selector) (tries : Nat)
    (s : S) :
    findElementM d .root sel tries s =
      (match d.find .root sel s with
       | .ok h => .ok (some h)
       | .error .noSuchElement => .ok none
       | .error e => .error e, s) := by
  unfold findElementM
  rw [find_element_const]

theorem findElementM_elem {S : Type} (d : SelDriver S) (h : Handle) (sel : Selector)
    (tries : Nat) (s : S) :
    findElementM d (.elem h) sel tries s =
      (match d.find (.elem h) sel s with
       | .ok h2 => .ok (some h2)
       | .error .noSuchElement => .ok none
       | .error e => .error e, s) := by
  unfold findElementM
  rw [find_element_const]

theorem login_absent_attribute_error {S : Type} (d : SelDriver S) (config : AppSettings)
    (s : S)
    (hfind : ∀ sel, d.find .root sel (d.nav INST_URL s) = .error .noSuchElement) :
    login_instagram d config s = (.error .attributeError, d.nav INST_URL s) := by
  unfold login_instagram
  rw [M.bind_apply]
  simp only [get_url, M.modifyS]
  rw [M.bind_apply, findElementM_root, hfind selUsername]
  simp only []
  rw [M.bind_apply, findElementM_root, hfind selPassword]
  simp only []
  rw [M.bind_apply]
  simp only [requireElem, M.throw]

/-- C2: for every session on which login either completes or fails with the
swallowed `NoSuchElementException` kind, if the profile page reached by the
subsequent navigation lacks the `Posts` marker element then `validate_user`
raises `UserNotFound` and the raised error carries exactly that username;
when the marker is present, `validate_user` returns without raising. -/
theorem validate_user_marker {S : Type} (d : SelDriver S) (config : AppSettings)
    (username : String) (s : S)
    (hlogin : (login_instagram d config s).1 = .ok () ∨
              (login_instagram d config s).1 = .error .noSuchElement) :
    (d.find .root selPosts
        (d.nav (INST_URL ++ "/" ++ username) (login_instagram d config s).2) =
          .error .noSuchElement →
      validate_user d config username s =
        (.error (.userNotFound (UserNotFound.fromKwUsername username)),
         d.nav (INST_URL ++ "/" ++ username) (login_instagram d config s).2) ∧
      (UserNotFound.fromKwUsername username).username = username) ∧
    (∀ h : Handle,
      d.find .root selPosts
          (d.nav (INST_URL ++ "/" ++ username) (login_instagram d config s).2) =
            .ok h →
      validate_user d config username s =
        (.ok (), d.nav (INST_URL ++ "/" ++ username) (login_instagram d config s).2)) := by
  rcases hlg : login_instagram d config s with ⟨r1, s1⟩
  have hcatch : catchNoSuchElement (login_instagram d config) s = (.ok (), s1) := by
    rcases hlogin with hl | hl <;> rw [hlg] at hl <;> simp only [] at hl <;>
      subst hl <;> unfold catchNoSuchElement <;> rw [hlg]
  simp only []
  constructor
  · intro hmarker
    refine ⟨?_, rfl⟩
    simp only [validate_user, M.bind_apply, hcatch, get_url, M.modifyS,
      findElementM_root, hmarker, M.throw]
  · intro h hmarker
    simp only [validate_user, M.bind_apply, hcatch, get_url, M.modifyS,
      findElementM_root, hmarker, M.pure_apply]

theorem validate_user_marker_witness :
    validate_user dGhost cfgTest ("ghostuser") 0 =
      (.error (.userNotFound (UserNotFound.fromKwUsername ("ghostuser"))), 2) ∧
    (UserNotFound.fromKwUsername ("ghostuser")).username = "ghostuser" ∧
    (validate_user dNav cfgTest ("realuser") 0).1 = .ok () := by
  refine ⟨?_, ?_, ?_⟩
  · exact ((validate_user_marker dGhost cfgTest ("ghostuser") 0 (Or.inl rfl)).1 rfl).1
  · exact ((validate_user_marker dGhost cfgTest ("ghostuser") 0 (Or.inl rfl)).1 rfl).2
  · exact congrArg Prod.fst
      ((validate_user_marker dNav cfgTest ("realuser") 0 (Or.inl rfl)).2 4 rfl)

/-- C1 counterexample: on the navigation-counting session, extraction with
`max_count = 0` does return the empty collection, but the session has
performed 3 navigation calls (login page, profile page for validation,
profile page again), because `get_profile` runs before the `max_count != 0`
test; the claimed absence of navigation calls fails. -/
theorem extraction_zero_navigates :
    get_profile_media_urls dNav cfgTest ("alice") .PHOTO 0 1 1 0 = (.ok ⟨[]⟩, 3) ∧
    (get_profile_media_urls dNav cfgTest ("alice") .PHOTO 0 1 1 0).2 ≠ 0 := by
  constructor
  · rfl
  · rw [show get_profile_media_urls dNav cfgTest ("alice") .PHOTO 0 1 1 0 =
        (.ok ⟨[]⟩, 3) from rfl]
    simp

/-- C1 amended: with `max_count = 0` every run of the extraction that returns
at all returns the empty collection; the short-circuit holds for the returned
value, while the profile navigation still takes place beforehand. -/
theorem extraction_zero_empty {S : Type} (d : SelDriver S) (config : AppSettings)
    (username : String) (media_type : InstagramMediaTypesSelectors)
    (cfuel fuel : Nat) (s : S) (m : InstagramLinksModel)
    (hok : (get_profile_media_urls d config username media_type 0 cfuel fuel s).1 = .ok m) :
    m.urls = [] := by
  unfold get_profile_media_urls at hok
  rw [M.bind_apply] at hok
  rcases hg : get_profile d config username s with ⟨r1, s1⟩
  rw [hg] at hok
  cases r1 with
  | error e => simp at hok
  | ok a =>
    simp only [ne_eq, not_true_eq_false, if_false, M.bind_apply, M.pure_apply] at hok
    simp only [validateLinks, List.all_nil, if_true, M.liftE] at hok
    cases hok
    rfl

theorem extraction_zero_empty_witness :
    (get_profile_media_urls dNav cfgTest ("bob") .CLIP 0 1 1 0).1 = .ok ⟨[]⟩ ∧
    (⟨[]⟩ : InstagramLinksModel).urls = [] :=
  ⟨rfl, extraction_zero_empty dNav cfgTest ("bob") .CLIP 1 1 0 ⟨[]⟩ rfl⟩

/-- C3 counterexample: on the session whose login page renders no form fields,
the extraction raises `AttributeError` (from calling `clear` on the `None`
lookup result), which is neither a link collection nor the user-not-found
error; so an error other than user-not-found does escape to the caller. -/
theorem extraction_error_escapes :
    (get_profile_media_urls dAbsent cfgTest ("alice") .PHOTO 5 3 3 ()).1 =
      .error .attributeError ∧
    (∀ exc : UserNotFound, PyErr.attributeError ≠ .userNotFound exc) :=
  ⟨rfl, fun exc => by simp⟩

/-- C3 amended: besides a successful collection and the user-not-found error,
the caller can observe further errors; in particular, whenever the login page
(reached by the first navigation) locates none of its elements, the extraction
raises `AttributeError` for every username, media type and bound. -/
theorem extraction_attribute_error {S : Type} (d : SelDriver S) (config : AppSettings)
    (username : String) (media_type : InstagramMediaTypesSelectors)
    (max_count cfuel fuel : Nat) (s : S)
    (hfind : ∀ sel, d.find .root sel (d.nav INST_URL s) = .error .noSuchElement) :
    (get_profile_media_urls d config username media_type max_count cfuel fuel s).1 =
      .error .attributeError := by
  have hl := login_absent_attribute_error d config s hfind
  have hcatch : catchNoSuchElement (login_instagram d config) s =
      (.error .attributeError, d.nav INST_URL s) := by
    unfold catchNoSuchElement
    rw [hl]
  simp only [get_profile_media_urls, get_profile, validate_user, M.bind_apply, hcatch]

theorem extraction_attribute_error_witness :
    (get_profile_media_urls dAbsent cfgTest ("bob") .CLIP 7 2 2 ()).1 =
      .error .attributeError :=
  extraction_attribute_error dAbsent cfgTest ("bob") .CLIP 7 2 2 () (fun sel => rfl)

/-- C8: at the failing input (a session whose login page renders none of its
form fields), the login failure is an `AttributeError` raised by calling
`clear` on the `None` returned by the element lookup; `validate_user` only
swallows `NoSuchElementException`, so the error propagates out of
`validate_user` instead of validation proceeding to the profile-marker check,
contradicting the claimed lenient call-site behaviour that the surrounding
`try/except NoSuchElementException` was written for. -/
theorem validate_user_login_crash :
    (validate_user dAbsent cfgTest ("someone") ()).1 = .error .attributeError ∧
    PyErr.attributeError ≠ PyErr.noSuchElement :=
  ⟨rfl, by simp⟩

set_option maxRecDepth 8000 in
/-- C6: on the concrete six-slide carousel session with matching media on
slides 1, 3 and 5 only, walking with `max_count = 3` returns exactly the three
matching URLs and leaves the session at slide index 5 with the slide-advance
click counter at 5 (each of the five loop rounds performed one advance); and,
in general, a slide without matching media leaves the collection unchanged
while still consuming exactly one pagination step of the loop. -/
theorem carousel_walker_spec :
    get_carousel_media dCarousel .PHOTO 3 10 (0, 0) =
      (.ok ⟨[some ("https://a/1"), some ("https://a/3"), some ("https://a/5")]⟩, (5, 5)) ∧
    (∀ (S : Type) (d : SelDriver S) (media_type : InstagramMediaTypesSelectors)
        (max_count fuel : Nat) (links : List (Option String)) (s : S) (ch : Handle),
      links.length < max_count →
      d.find .root selCarouselItem s = .ok ch →
      d.find (.elem ch) ⟨.xpath, media_type.value⟩ s = .error .noSuchElement →
      carouselLoop d media_type max_count (fuel + 1) links s =
        match next_element d .SLIDE 3 s with
        | (.ok true, s2) => (.ok links, s2)
        | (.ok false, s2) => carouselLoop d media_type max_count fuel links s2
        | (.error e, s2) => (.error e, s2)) := by
  constructor
  · rfl
  · intro S d media_type max_count fuel links s ch hlen hc hm
    rw [carouselLoop]
    simp only [hlen, if_true, M.bind_apply, findElementM_root, hc, objOf,
      findElementM_elem, hm, M.pure_apply]
    rcases hne : next_element d .SLIDE 3 s with ⟨r, s2⟩
    cases r with
    | ok b => cases b <;> simp [M.pure_apply]
    | error e => simp

theorem carousel_walker_spec_witness :
    carouselLoop dCarousel .PHOTO 3 9 [some ("https://a/1")] (1, 1) =
      carouselLoop dCarousel .PHOTO 3 8 [some ("https://a/1")] (2, 2) := by
  rw [carousel_walker_spec.2 (Nat × Nat) dCarousel .PHOTO 3 8 [some ("https://a/1")]
    (1, 1) 100 (by decide) rfl rfl]
  rfl

/-- C4 counterexample: two calls with equal profile name (or, for the
post-level classifier, an identical current post since the classifier takes no
post URL at all), equal media type and equal requested count, but made through
two different driver sessions, derive different cache keys: the driver
argument enters the key, so the key is not a function of only the claimed
triple. -/
theorem cache_key_depends_on_driver :
    get_profile_media_urls_cache_key ("alice") .PHOTO ("chrome-session-a") 3 ≠
      get_profile_media_urls_cache_key ("alice") .PHOTO ("chrome-session-b") 3 ∧
    get_post_type_cache_key ("chrome-session-a") ≠
      get_post_type_cache_key ("chrome-session-b") := by
  constructor <;> decide

/-- C4 amended: each cache key is a deterministic pure function of the
decorated function's full argument tuple, driver session included: the
profile-level key determines and is determined by (username, media type,
driver, requested count), and the post-level key by the driver alone (the
post URL is not among its inputs). -/
theorem cache_key_of_full_arguments :
    (∀ (u1 u2 : String) (m1 m2 : InstagramMediaTypesSelectors) (d1 d2 : String)
        (c1 c2 : Nat),
      get_profile_media_urls_cache_key u1 m1 d1 c1 =
        get_profile_media_urls_cache_key u2 m2 d2 c2 ↔
      (u1 = u2 ∧ m1 = m2 ∧ d1 = d2 ∧ c1 = c2)) ∧
    (∀ d1 d2 : String,
      get_post_type_cache_key d1 = get_post_type_cache_key d2 ↔ d1 = d2) := by
  constructor <;> intros <;>
    simp [get_profile_media_urls_cache_key, get_post_type_cache_key]

/-- C9 counterexample: the collection type admits `None` elements
(`List[Optional[AnyUrl]]`), so constructing `InstagramLinksModel` from a list
containing `None` succeeds even though `None` is not a parsed URL (it equals
no `some` string); a collection containing a non-URL element is returned. -/
theorem links_model_accepts_none :
    validateLinks [none] = .ok ⟨[none]⟩ ∧
    (∀ str : String, (none : Option String) ≠ some str) :=
  ⟨rfl, fun str => by simp⟩

/-- C9 amended: every element of a successfully constructed collection is
`None` or a string passing the URL check, and a non-`None` element failing
the URL check makes construction fail; `None` elements are accepted. -/
theorem links_model_validation :
    (∀ (urls : List (Option String)) (m : InstagramLinksModel),
      validateLinks urls = .ok m →
      m = ⟨urls⟩ ∧ ∀ o ∈ urls, o = none ∨ ∃ str, o = some str ∧ isAnyUrl str = true) ∧
    (∀ (urls : List (Option String)) (str : String),
      some str ∈ urls → isAnyUrl str = false →
      validateLinks urls = .error .validationError) := by
  constructor
  · intro urls m hok
    unfold validateLinks at hok
    by_cases hall : urls.all (fun o => match o with | none => true | some s => isAnyUrl s) = true
    · rw [if_pos hall] at hok
      cases hok
      refine ⟨rfl, ?_⟩
      intro o ho
      have := List.all_eq_true.mp hall o ho
      cases o with
      | none => exact Or.inl rfl
      | some str => exact Or.inr ⟨str, rfl, this⟩
    · rw [if_neg hall] at hok
      cases hok
  · intro urls str hmem hbad
    unfold validateLinks
    rw [if_neg]
    intro hall
    have := List.all_eq_true.mp hall (some str) hmem
    simp only [] at this
    rw [hbad] at this
    cases this

theorem links_model_validation_witness :
    validateLinks [some ("notaurl")] = .error .validationError ∧
    (∀ o ∈ [some ("https://a/1")], o = none ∨
      ∃ str, o = some str ∧ isAnyUrl str = true) :=
  ⟨links_model_validation.2 [some ("notaurl")] ("notaurl") (by simp) rfl,
   (links_model_validation.1 [some ("https://a/1")] ⟨[some ("https://a/1")]⟩ rfl).2⟩

theorem M.pure_eq_ok {S α : Type} {a b : α} {s s2 : S}
    (h : (pure a : M S α) s = (.ok b, s2)) : b = a ∧ s2 = s := by
  simp only [M.pure_apply, Prod.mk.injEq, Except.ok.injEq] at h
  exact ⟨h.1.symm, h.2.symm⟩

theorem validateLinks_ok {urls : List (Option String)} {m : InstagramLinksModel}
    (h : validateLinks urls = .ok m) : m = ⟨urls⟩ := by
  unfold validateLinks at h
  split at h
  · cases h
    rfl
  · cases h

theorem carouselLoop_length {S : Type} (d : SelDriver S)
    (media_type : InstagramMediaTypesSelectors) (max_count : Nat) :
    ∀ fuel links s r s2,
      carouselLoop d media_type max_count fuel links s = (.ok r, s2) →
      links.length ≤ max_count → r.length ≤ max_count := by
  intro fuel
  induction fuel with
  | zero =>
    intro links s r s2 h hlen
    rw [carouselLoop] at h
    simp only [] at h
    split at h
    · cases h
    · simp only [Prod.mk.injEq, Except.ok.injEq] at h
      rw [← h.1]
      exact hlen
  | succ f ih =>
    intro links s r s2 h hlen
    rw [carouselLoop] at h
    simp only [] at h
    split at h
    case isTrue hc =>
      have tail : ∀ (links2 : List (Option String)) (s5 : S),
          links2.length ≤ max_count →
          ((next_element d .SLIDE 3 >>= fun last_slide =>
            if last_slide = true then pure links2
            else carouselLoop d media_type max_count f links2) s5 = (.ok r, s2)) →
          r.length ≤ max_count := by
        intro links2 s5 hb h2
        rw [M.bind_eq_ok] at h2
        obtain ⟨last, s7, hlast, h2⟩ := h2
        cases last
        · rw [if_neg (by simp)] at h2
          exact ih links2 s7 r s2 h2 hb
        · rw [if_pos rfl] at h2
          obtain ⟨h3, h4⟩ := M.pure_eq_ok h2
          rw [h3]
          exact hb
      rw [M.bind_eq_ok] at h
      obtain ⟨ce, s3, hce, h⟩ := h
      rw [M.bind_eq_ok] at h
      obtain ⟨sm, s4, hsm, h⟩ := h
      cases sm with
      | none =>
        rw [M.bind_eq_ok] at h
        obtain ⟨links2, s5, hl2, h⟩ := h
        obtain ⟨hl2a, hl2b⟩ := M.pure_eq_ok hl2
        exact tail links2 s5 (by rw [hl2a]; omega) h
      | some hd =>
        rw [M.bind_eq_ok] at h
        obtain ⟨src, s6, hsrc, h⟩ := h
        rw [M.bind_eq_ok] at h
        obtain ⟨links2, s5, hl2, h⟩ := h
        obtain ⟨hl2a, hl2b⟩ := M.pure_eq_ok hl2
        refine tail links2 s5 ?_ h
        rw [hl2a]
        simp only [List.length_append, List.length_singleton]
        omega
    case isFalse hc =>
      simp only [Prod.mk.injEq, Except.ok.injEq] at h
      rw [← h.1]
      exact hlen

theorem mediaLoop_length {S : Type} (d : SelDriver S)
    (media_type : InstagramMediaTypesSelectors) (max_count cfuel : Nat)
    (hmt : media_type ≠ .CAROUSEL) :
    ∀ fuel medias s r s2,
      mediaLoop d media_type max_count cfuel fuel medias s = (.ok r, s2) →
      medias.length ≤ max_count → r.length ≤ max_count := by
  intro fuel
  induction fuel with
  | zero =>
    intro medias s r s2 h hlen
    rw [mediaLoop] at h
    simp only [] at h
    split at h
    · cases h
    · simp only [Prod.mk.injEq, Except.ok.injEq] at h
      rw [← h.1]
      exact hlen
  | succ f ih =>
    intro medias s r s2 h hlen
    rw [mediaLoop] at h
    simp only [] at h
    split at h
    case isTrue hc =>
      rw [M.bind_eq_ok] at h
      obtain ⟨pt, s3, hpt, h⟩ := h
      have tail : ∀ (y : List (Option String)) (s5 : S),
          y.length ≤ max_count →
          ((next_element d .POST 1 >>= fun last_post =>
            if last_post = true then pure y
            else mediaLoop d media_type max_count cfuel f y) s5 = (.ok r, s2)) →
          r.length ≤ max_count := by
        intro y s5 hb h2
        rw [M.bind_eq_ok] at h2
        obtain ⟨last, s7, hlast, h2⟩ := h2
        cases last
        · rw [if_neg (by simp)] at h2
          exact ih y s7 r s2 h2 hb
        · rw [if_pos rfl] at h2
          obtain ⟨h3, h4⟩ := M.pure_eq_ok h2
          rw [h3]
          exact hb
      by_cases hpm : pt = media_type
      · rw [if_pos hpm] at h
        rw [M.bind_eq_ok] at h
        obtain ⟨el, s6, hel, h⟩ := h
        rw [M.bind_eq_ok] at h
        obtain ⟨elh, s7, helh, h⟩ := h
        rw [M.bind_eq_ok] at h
        obtain ⟨src, s8, hsrc, h⟩ := h
        rw [M.bind_eq_ok] at h
        obtain ⟨y, s9, hy, h⟩ := h
        obtain ⟨hya, hyb⟩ := M.pure_eq_ok hy
        have hpc : ¬pt = InstagramMediaTypesSelectors.CAROUSEL := by
          rw [hpm]
          exact hmt
        rw [if_neg hpc] at h
        rw [M.bind_eq_ok] at h
        obtain ⟨y2, s10, hy2, h⟩ := h
        obtain ⟨hy2a, hy2b⟩ := M.pure_eq_ok hy2
        refine tail y2 s10 ?_ h
        rw [hy2a, hya]
        simp only [List.length_append, List.length_singleton]
        omega
      · rw [if_neg hpm] at h
        rw [M.bind_eq_ok] at h
        obtain ⟨y, s6, hy, h⟩ := h
        obtain ⟨hya, hyb⟩ := M.pure_eq_ok hy
        by_cases hpc : pt = InstagramMediaTypesSelectors.CAROUSEL
        · rw [if_pos hpc] at h
          rw [M.bind_eq_ok] at h
          obtain ⟨cm, s7, hcm, h⟩ := h
          rcases hu : cm.urls with _ | ⟨u, rest⟩ <;> rw [hu] at h <;> simp only [] at h
          · rw [M.bind_eq_ok] at h
            obtain ⟨y2, s8, hy2, h⟩ := h
            obtain ⟨hy2a, hy2b⟩ := M.pure_eq_ok hy2
            exact tail y2 s8 (by rw [hy2a, hya]; omega) h
          · rw [M.bind_eq_ok] at h
            obtain ⟨y2, s8, hy2, h⟩ := h
            obtain ⟨hy2a, hy2b⟩ := M.pure_eq_ok hy2
            refine tail y2 s8 ?_ h
            rw [hy2a, hya]
            simp only [List.length_append, List.length_singleton]
            omega
        · rw [if_neg hpc] at h
          rw [M.bind_eq_ok] at h
          obtain ⟨y2, s8, hy2, h⟩ := h
          obtain ⟨hy2a, hy2b⟩ := M.pure_eq_ok hy2
          exact tail y2 s8 (by rw [hy2a, hya]; omega) h
    case isFalse hc =>
      simp only [Prod.mk.injEq, Except.ok.injEq] at h
      rw [← h.1]
      exact hlen

/-- C10: for a requested media type other than `CAROUSEL`, every collection
returned by `get_profile_media_urls` has at most `max_count` URLs, and every
collection returned by `get_carousel_media` has at most `max_count` URLs:
each round of either loop appends at most one entry and both loops are
guarded by the collected count staying below `max_count`. -/
theorem media_collections_bounded :
    (∀ (S : Type) (d : SelDriver S) (config : AppSettings) (username : String)
        (media_type : InstagramMediaTypesSelectors) (max_count cfuel fuel : Nat)
        (s : S) (m : InstagramLinksModel) (s2 : S),
      media_type ≠ .CAROUSEL →
      get_profile_media_urls d config username media_type max_count cfuel fuel s =
        (.ok m, s2) →
      m.urls.length ≤ max_count) ∧
    (∀ (S : Type) (d : SelDriver S) (media_type : InstagramMediaTypesSelectors)
        (max_count fuel : Nat) (s : S) (m : InstagramLinksModel) (s2 : S),
      get_carousel_media d media_type max_count fuel s = (.ok m, s2) →
      m.urls.length ≤ max_count) := by
  constructor
  · intro S d config username media_type max_count cfuel fuel s m s2 hmt h
    unfold get_profile_media_urls at h
    rw [M.bind_eq_ok] at h
    obtain ⟨u0, s1, hprof, h⟩ := h
    by_cases h0 : max_count ≠ 0
    · rw [if_pos h0] at h
      rw [M.bind_eq_ok] at h
      obtain ⟨latest, s4, hl, h⟩ := h
      cases latest with
      | none =>
        rw [M.bind_eq_ok] at h
        obtain ⟨medias, s5, hm0, h⟩ := h
        obtain ⟨ha, hb⟩ := M.pure_eq_ok hm0
        simp only [M.liftE] at h
        have hvl : validateLinks medias = .ok m := congrArg Prod.fst h
        rw [validateLinks_ok hvl, ha]
        simp
      | some hd =>
        rw [M.bind_eq_ok] at h
        obtain ⟨u1, s5, hclick, h⟩ := h
        rw [M.bind_eq_ok] at h
        obtain ⟨medias, s6, hloop, h⟩ := h
        simp only [M.liftE] at h
        have hvl : validateLinks medias = .ok m := congrArg Prod.fst h
        rw [validateLinks_ok hvl]
        exact mediaLoop_length d media_type max_count cfuel hmt fuel [] s5 medias s6
          hloop (by simp)
    · rw [if_neg h0] at h
      rw [M.bind_eq_ok] at h
      obtain ⟨medias, s5, hm0, h⟩ := h
      obtain ⟨ha, hb⟩ := M.pure_eq_ok hm0
      simp only [M.liftE] at h
      have hvl : validateLinks medias = .ok m := congrArg Prod.fst h
      rw [validateLinks_ok hvl, ha]
      simp
  · intro S d media_type max_count fuel s m s2 h
    unfold get_carousel_media at h
    rw [M.bind_eq_ok] at h
    obtain ⟨links, s1, hloop, h⟩ := h
    simp only [M.liftE] at h
    have hvl : validateLinks links = .ok m := congrArg Prod.fst h
    rw [validateLinks_ok hvl]
    exact carouselLoop_length d media_type max_count fuel [] s links s1 hloop (by simp)

set_option maxRecDepth 8000 in
theorem media_collections_bounded_witness :
    (⟨[]⟩ : InstagramLinksModel).urls.length ≤ 0 ∧
    (⟨[some ("https://a/1"), some ("https://a/3"), some ("https://a/5")]⟩ :
      InstagramLinksModel).urls.length ≤ 3 :=
  ⟨media_collections_bounded.1 Nat dNav cfgTest ("alice") .PHOTO 0 1 1 0 ⟨[]⟩ 3
      (by simp) rfl,
   media_collections_bounded.2 (Nat × Nat) dCarousel .PHOTO 3 10 (0, 0)
      ⟨[some ("https://a/1"), some ("https://a/3"), some ("https://a/5")]⟩ (5, 5) rfl⟩
